import Mathlib

/-!
Shallow embedding of the OneRoster mock server (datastore.go and its HTTP
handlers) in Lean 4.

Modelling conventions, applied uniformly:
* Go strings are `String`; Go `time.Time` is a `Nat` timestamp whose zero
  value (the uninitialised `time.Time`) is `0`; Go `any` metadata is
  `Option String` with zero value `none`.
* `uuid.New().String()` and `time.Now()` are modelled by explicit oracles
  `ids : Nat → String` and `clock : Nat → Nat`: the n-th call of
  `uuid.New().String()` made by `NewDataStore` returns `ids n`, and the n-th
  record carrying a `time.Now()` stamp gets `clock` at the same call index.
  `uuid` guarantees distinct ids, which proofs take as an injectivity
  hypothesis on `ids`; `time.Now()` never returns the zero time, which
  proofs take as a nonzero hypothesis on `clock` where needed.
* A Go loop `for _, x := range coll { if cond(x) { return ok(x) } };
  return notFound` is `coll.find?` (first match or none); a loop that
  appends every element satisfying a condition to a fresh slice is
  `coll.filter` (matches in order).
* `writeJSON(w, http.StatusOK, body)` / `writeJSON(w, http.StatusNotFound,
  {"error": msg})` become the two constructors of `ApiResult`.
-/

set_option maxRecDepth 40000

namespace OneRoster

/-- BaseModel: fields common to most OneRoster objects (datastore.go). -/
structure BaseModel where
  sourcedId : String
  status : String
  dateLastModified : Nat
  metadata : Option String
deriving DecidableEq, Inhabited

/-- GUIDRef: a reference to another object in the system (datastore.go). -/
structure GUIDRef where
  href : String
  sourcedId : String
  type : String
deriving DecidableEq, Inhabited

/-- Org: an organization, like a school or district (datastore.go). -/
structure Org where
  base : BaseModel
  name : String
  type : String
  identifier : String
  parent : Option GUIDRef
  children : List GUIDRef
deriving DecidableEq, Inhabited

/-- User: a person, like a student or teacher (datastore.go). -/
structure User where
  base : BaseModel
  username : String
  userIds : List String
  enabledUser : Bool
  givenName : String
  familyName : String
  role : String
  identifier : String
  email : String
  orgs : List GUIDRef
deriving DecidableEq, Inhabited

/-- Course: a course catalog entry (datastore.go). -/
structure Course where
  base : BaseModel
  title : String
  schoolYear : Option GUIDRef
  courseCode : String
  grades : List String
  subjects : List String
  subjectCodes : List String
  resources : List GUIDRef
deriving DecidableEq, Inhabited

/-- Class: a specific instance of a course (datastore.go). -/
structure Class where
  base : BaseModel
  title : String
  classCode : String
  classType : String
  location : String
  grades : List String
  subjects : List String
  course : GUIDRef
  school : GUIDRef
  terms : List GUIDRef
  subjectCodes : List String
  periods : List String
  resources : List GUIDRef
deriving DecidableEq, Inhabited

/-- Enrollment: links a user to a class in a specific role (datastore.go).
The Go field `Class` is rendered `classRef` because `class` is a Lean
keyword. -/
structure Enrollment where
  base : BaseModel
  user : GUIDRef
  classRef : GUIDRef
  school : GUIDRef
  role : String
  primary : Bool
  beginDate : String
  endDate : String
deriving DecidableEq, Inhabited

/-- AcademicSession: a time period like a term or semester (datastore.go). -/
structure AcademicSession where
  base : BaseModel
  title : String
  startDate : String
  endDate : String
  type : String
  parent : Option GUIDRef
  children : List GUIDRef
  schoolYear : String
deriving DecidableEq, Inhabited

/-- Category: a grading category for a class (datastore.go). -/
structure Category where
  base : BaseModel
  title : String
  weight : Int
deriving DecidableEq, Inhabited

/-- DataStore: holds all the in-memory mock data (datastore.go). -/
structure DataStore where
  orgs : List Org
  users : List User
  courses : List Course
  classes : List Class
  enrollments : List Enrollment
  academicSessions : List AcademicSession
  categories : List Category
deriving DecidableEq, Inhabited

/-! ### Generation (NewDataStore)

`NewDataStore` makes its `uuid.New()` / `time.Now()` calls in a fixed
order: 10 orgs, 1000 students, 250 teachers, 4 academic sessions,
50 courses, 500 classes, then 3 categories (categories call only
`uuid.New()`).  The offsets below give each record its global call index. -/

def orgIdx (j : Nat) : Nat := j

def studentIdx (j : Nat) : Nat := 10 + j

def teacherIdx (j : Nat) : Nat := 1010 + j

def sessionIdx (j : Nat) : Nat := 1260 + j

def courseIdx (j : Nat) : Nat := 1264 + j

def classIdx (j : Nat) : Nat := 1314 + j

def categoryIdx (j : Nat) : Nat := 1814 + j

/-- Zero-padded decimal rendering, as produced by fmt.Sprintf with a
width-`w` zero-padded verb such as `%03d`. -/
def padNum (w n : Nat) : String :=
  let s := Nat.repr n
  String.mk (List.replicate (w - s.length) '0') ++ s

/-- The org built by iteration `i = j + 1` of the Orgs loop in
`NewDataStore` (datastore.go lines 133-141). -/
def orgAt (ids : Nat → String) (clock : Nat → Nat) (j : Nat) : Org :=
  let i := j + 1
  { base := { sourcedId := ids (orgIdx j), status := "active",
              dateLastModified := clock (orgIdx j), metadata := none }
    name := "School #" ++ Nat.repr i
    type := "school"
    identifier := "SCH" ++ padNum 3 i
    parent := none
    children := [] }

/-- The Orgs slice after the Orgs loop (`for i := 1; i <= 10; i++`). -/
def genOrgs (ids : Nat → String) (clock : Nat → Nat) : List Org :=
  (List.range 10).map (orgAt ids clock)

/-- The student built by iteration `i = j + 1` of the students loop
(datastore.go lines 145-159): `school := ds.Orgs[i%len(ds.Orgs)]`. -/
def studentAt (ids : Nat → String) (clock : Nat → Nat) (j : Nat) : User :=
  let i := j + 1
  let school := (genOrgs ids clock).getD (i % (genOrgs ids clock).length) default
  { base := { sourcedId := ids (studentIdx j), status := "active",
              dateLastModified := clock (studentIdx j), metadata := none }
    username := "student" ++ Nat.repr i
    userIds := []
    enabledUser := true
    givenName := "Student"
    familyName := "User" ++ Nat.repr i
    role := "student"
    identifier := "STU" ++ padNum 4 i
    email := "student" ++ Nat.repr i ++ "@example.com"
    orgs := [{ href := "/orgs/" ++ school.base.sourcedId,
               sourcedId := school.base.sourcedId, type := "org" }] }

/-- The teacher built by iteration `i = j + 1` of the teachers loop
(datastore.go lines 161-175). -/
def teacherAt (ids : Nat → String) (clock : Nat → Nat) (j : Nat) : User :=
  let i := j + 1
  let school := (genOrgs ids clock).getD (i % (genOrgs ids clock).length) default
  { base := { sourcedId := ids (teacherIdx j), status := "active",
              dateLastModified := clock (teacherIdx j), metadata := none }
    username := "teacher" ++ Nat.repr i
    userIds := []
    enabledUser := true
    givenName := "Teacher"
    familyName := "User" ++ Nat.repr i
    role := "teacher"
    identifier := "TCH" ++ padNum 4 i
    email := "teacher" ++ Nat.repr i ++ "@example.com"
    orgs := [{ href := "/orgs/" ++ school.base.sourcedId,
               sourcedId := school.base.sourcedId, type := "org" }] }

/-- The 1000 students followed by the 250 teachers, in append order. -/
def genStudents (ids : Nat → String) (clock : Nat → Nat) : List User :=
  (List.range 1000).map (studentAt ids clock)

def genTeachers (ids : Nat → String) (clock : Nat → Nat) : List User :=
  (List.range 250).map (teacherAt ids clock)

/-- The academic session built by iteration `i = j + 1` of the sessions
loop (datastore.go lines 178-188): all generated sessions have type
"term" and titles "Fall Semester 202(i+4)". -/
def sessionAt (ids : Nat → String) (clock : Nat → Nat) (j : Nat) : AcademicSession :=
  let i := j + 1
  { base := { sourcedId := ids (sessionIdx j), status := "active",
              dateLastModified := clock (sessionIdx j), metadata := none }
    title := "Fall Semester 202" ++ Nat.repr (i + 4)
    type := "term"
    startDate := "202" ++ Nat.repr (i + 4) ++ "-09-01"
    endDate := "202" ++ Nat.repr (i + 4) ++ "-12-20"
    parent := none
    children := []
    schoolYear := "202" ++ Nat.repr (i + 4) }

def genSessions (ids : Nat → String) (clock : Nat → Nat) : List AcademicSession :=
  (List.range 4).map (sessionAt ids clock)

/-- The course built by iteration `i = j + 1` of the courses loop
(datastore.go lines 191-199). -/
def courseAt (ids : Nat → String) (clock : Nat → Nat) (j : Nat) : Course :=
  let i := j + 1
  { base := { sourcedId := ids (courseIdx j), status := "active",
              dateLastModified := clock (courseIdx j), metadata := none }
    title := "Course " ++ Nat.repr i
    schoolYear := none
    courseCode := "CRS" ++ padNum 3 i
    grades := []
    subjects := ["General"]
    subjectCodes := []
    resources := [] }

def genCourses (ids : Nat → String) (clock : Nat → Nat) : List Course :=
  (List.range 50).map (courseAt ids clock)

/-- The class built by iteration `i = j + 1` of the classes loop
(datastore.go lines 202-218): course, school and term are picked by
`i % len(collection)` from the already-built collections. -/
def classAt (ids : Nat → String) (clock : Nat → Nat) (j : Nat) : Class :=
  let i := j + 1
  let course := (genCourses ids clock).getD (i % (genCourses ids clock).length) default
  let school := (genOrgs ids clock).getD (i % (genOrgs ids clock).length) default
  let term := (genSessions ids clock).getD (i % (genSessions ids clock).length) default
  { base := { sourcedId := ids (classIdx j), status := "active",
              dateLastModified := clock (classIdx j), metadata := none }
    title := course.title
    classCode := course.courseCode ++ "-S" ++ Nat.repr i
    classType := "scheduled"
    location := ""
    grades := ["10"]
    subjects := ["General"]
    course := { href := "/courses/" ++ course.base.sourcedId,
                sourcedId := course.base.sourcedId, type := "course" }
    school := { href := "/schools/" ++ school.base.sourcedId,
                sourcedId := school.base.sourcedId, type := "school" }
    terms := [{ href := "/terms/" ++ term.base.sourcedId,
                sourcedId := term.base.sourcedId, type := "term" }]
    subjectCodes := []
    periods := []
    resources := [] }

def genClasses (ids : Nat → String) (clock : Nat → Nat) : List Class :=
  (List.range 500).map (classAt ids clock)

/-- The three categories (datastore.go lines 221-225): only `SourcedId` is
set inside their `BaseModel`, so `Status` and `DateLastModified` keep the
Go zero values ("" and the zero time, i.e. `0` here). -/
def genCategories (ids : Nat → String) : List Category :=
  [ { base := { sourcedId := ids (categoryIdx 0), status := "",
                dateLastModified := 0, metadata := none },
      title := "Homework", weight := 20 },
    { base := { sourcedId := ids (categoryIdx 1), status := "",
                dateLastModified := 0, metadata := none },
      title := "Exams", weight := 50 },
    { base := { sourcedId := ids (categoryIdx 2), status := "",
                dateLastModified := 0, metadata := none },
      title := "Participation", weight := 30 } ]

/-- NewDataStore creates and populates a DataStore with a large volume of
mock data (datastore.go lines 129-228).  No enrollments are ever
appended, so `enrollments` stays the empty slice. -/
def NewDataStore (ids : Nat → String) (clock : Nat → Nat) : DataStore :=
  { orgs := genOrgs ids clock
    users := genStudents ids clock ++ genTeachers ids clock
    courses := genCourses ids clock
    classes := genClasses ids clock
    enrollments := []
    academicSessions := genSessions ids clock
    categories := genCategories ids }

/-! ### Query service (the APIHandlers methods)

Each Go handler either writes status 200 with the payload or status 404
with `{"error": "<Kind> not found"}`; `ApiResult` records exactly that
outcome. -/

/-- Outcome of a handler: HTTP 200 with a JSON body, or HTTP 404 with the
handler's fixed error message. -/
inductive ApiResult (α : Type) where
  | ok (body : α)
  | notFound (msg : String)
deriving DecidableEq

/-- getOrgs: all organizations. -/
def getOrgs (ds : DataStore) : ApiResult (List Org) :=
  .ok ds.orgs

/-- getOrg: single organization by SourcedId (linear scan, first match). -/
def getOrg (ds : DataStore) (id : String) : ApiResult Org :=
  match ds.orgs.find? (fun org => org.base.sourcedId == id) with
  | some org => .ok org
  | none => .notFound "Org not found"

/-- getSchools: organizations of type 'school', in order. -/
def getSchools (ds : DataStore) : ApiResult (List Org) :=
  .ok (ds.orgs.filter (fun org => org.type == "school"))

/-- getSchool: single school by SourcedId (id match and type 'school'). -/
def getSchool (ds : DataStore) (id : String) : ApiResult Org :=
  match ds.orgs.find? (fun org => org.base.sourcedId == id && org.type == "school") with
  | some org => .ok org
  | none => .notFound "School not found"

/-- getUsers: all users. -/
def getUsers (ds : DataStore) : ApiResult (List User) :=
  .ok ds.users

/-- getUser: single user by SourcedId. -/
def getUser (ds : DataStore) (id : String) : ApiResult User :=
  match ds.users.find? (fun user => user.base.sourcedId == id) with
  | some user => .ok user
  | none => .notFound "User not found"

/-- getTeachers: users with role 'teacher', in order. -/
def getTeachers (ds : DataStore) : ApiResult (List User) :=
  .ok (ds.users.filter (fun user => user.role == "teacher"))

/-- getTeacher: single teacher by SourcedId (id match and role 'teacher'). -/
def getTeacher (ds : DataStore) (id : String) : ApiResult User :=
  match ds.users.find? (fun user => user.base.sourcedId == id && user.role == "teacher") with
  | some user => .ok user
  | none => .notFound "Teacher not found"

/-- getStudents: users with role 'student', in order. -/
def getStudents (ds : DataStore) : ApiResult (List User) :=
  .ok (ds.users.filter (fun user => user.role == "student"))

/-- getStudent: single student by SourcedId (id match and role 'student'). -/
def getStudent (ds : DataStore) (id : String) : ApiResult User :=
  match ds.users.find? (fun user => user.base.sourcedId == id && user.role == "student") with
  | some user => .ok user
  | none => .notFound "Student not found"

/-- getCourses: all courses. -/
def getCourses (ds : DataStore) : ApiResult (List Course) :=
  .ok ds.courses

/-- getCourse: single course by SourcedId. -/
def getCourse (ds : DataStore) (id : String) : ApiResult Course :=
  match ds.courses.find? (fun course => course.base.sourcedId == id) with
  | some course => .ok course
  | none => .notFound "Course not found"

/-- getClasses: all classes. -/
def getClasses (ds : DataStore) : ApiResult (List Class) :=
  .ok ds.classes

/-- getClass: single class by SourcedId. -/
def getClass (ds : DataStore) (id : String) : ApiResult Class :=
  match ds.classes.find? (fun cls => cls.base.sourcedId == id) with
  | some cls => .ok cls
  | none => .notFound "Class not found"

/-- getCategoriesForClass: categories for a given class.  In the mock,
categories are global, not class-specific: the class id from the URL is
accepted but never read. -/
def getCategoriesForClass (ds : DataStore) (_id : String) : ApiResult (List Category) :=
  .ok ds.categories

/-- getEnrollments: all enrollments. -/
def getEnrollments (ds : DataStore) : ApiResult (List Enrollment) :=
  .ok ds.enrollments

/-- getEnrollment: single enrollment by SourcedId. -/
def getEnrollment (ds : DataStore) (id : String) : ApiResult Enrollment :=
  match ds.enrollments.find? (fun e => e.base.sourcedId == id) with
  | some e => .ok e
  | none => .notFound "Enrollment not found"

/-- getTerms: academic sessions of type 'term', in order. -/
def getTerms (ds : DataStore) : ApiResult (List AcademicSession) :=
  .ok (ds.academicSessions.filter (fun s => s.type == "term"))

/-- getTerm: single term by SourcedId (id match and type 'term'). -/
def getTerm (ds : DataStore) (id : String) : ApiResult AcademicSession :=
  match ds.academicSessions.find? (fun s => s.base.sourcedId == id && s.type == "term") with
  | some s => .ok s
  | none => .notFound "Term not found"

/-- getAcademicSessions: all academic sessions. -/
def getAcademicSessions (ds : DataStore) : ApiResult (List AcademicSession) :=
  .ok ds.academicSessions

/-- getAcademicSession: single academic session by SourcedId. -/
def getAcademicSession (ds : DataStore) (id : String) : ApiResult AcademicSession :=
  match ds.academicSessions.find? (fun s => s.base.sourcedId == id) with
  | some s => .ok s
  | none => .notFound "Academic Session not found"

/-- getGradingPeriods: academic sessions of type 'gradingPeriod', in order. -/
def getGradingPeriods (ds : DataStore) : ApiResult (List AcademicSession) :=
  .ok (ds.academicSessions.filter (fun s => s.type == "gradingPeriod"))

/-- getGradingPeriod: single grading period by SourcedId. -/
def getGradingPeriod (ds : DataStore) (id : String) : ApiResult AcademicSession :=
  match ds.academicSessions.find? (fun s => s.base.sourcedId == id && s.type == "gradingPeriod") with
  | some s => .ok s
  | none => .notFound "Grading Period not found"

/-! ### General helper lemmas -/

section Helpers

variable {α β : Type}

lemma getD_range_map (f : Nat → β) {n k : Nat} (h : k < n) (d : β) :
    ((List.range n).map f).getD k d = f k := by
  simp [List.getD_eq_getElem?_getD, List.getElem?_map, List.getElem?_range, h]

lemma getD_mem {l : List β} {n : Nat} (h : n < l.length) (d : β) :
    l.getD n d ∈ l := by
  rw [List.getD_eq_getElem l d h]
  exact l.getElem_mem h

/-- A scan for an id match returns some record with that id whenever the
list holds one. -/
lemma find_id_isSome (sid : α → String) (l : List α) (id : String)
    (h : ∃ x ∈ l, sid x = id) :
    ∃ y, l.find? (fun x => sid x == id) = some y ∧ sid y = id := by
  have hs : (l.find? (fun x => sid x == id)).isSome := by
    apply List.find?_isSome.mpr
    obtain ⟨x, hx, hsid⟩ := h
    exact ⟨x, hx, by simp [hsid]⟩
  obtain ⟨y, hy⟩ := Option.isSome_iff_exists.mp hs
  have hb := List.find?_some hy
  exact ⟨y, hy, eq_of_beq hb⟩

/-- A scan for an id match returns nothing when no record has the id. -/
lemma find_id_none (sid : α → String) (l : List α) (id : String)
    (h : ∀ x ∈ l, sid x ≠ id) :
    l.find? (fun x => sid x == id) = none := by
  apply List.find?_eq_none.mpr
  intro x hx
  simp [h x hx]

/-- A scan for an id-and-predicate match returns some record with that id
whenever the list holds a record with the id that satisfies the
predicate. -/
lemma find_idp_isSome (sid : α → String) (p : α → Bool) (l : List α) (id : String)
    (h : ∃ x ∈ l, sid x = id ∧ p x = true) :
    ∃ y, l.find? (fun x => sid x == id && p x) = some y ∧ sid y = id := by
  have hs : (l.find? (fun x => sid x == id && p x)).isSome := by
    apply List.find?_isSome.mpr
    obtain ⟨x, hx, h1, h2⟩ := h
    exact ⟨x, hx, by simp [h1, h2]⟩
  obtain ⟨y, hy⟩ := Option.isSome_iff_exists.mp hs
  have hp := List.find?_some hy
  simp only [Bool.and_eq_true] at hp
  exact ⟨y, hy, eq_of_beq hp.1⟩

/-- A scan for an id-and-predicate match returns nothing when no record
has the id at all. -/
lemma find_idp_none (sid : α → String) (p : α → Bool) (l : List α) (id : String)
    (h : ∀ x ∈ l, sid x ≠ id) :
    l.find? (fun x => sid x == id && p x) = none := by
  apply List.find?_eq_none.mpr
  intro x hx
  simp [h x hx]

/-- A linear scan returns the first matching element. -/
lemma find_append_first (p : α → Bool) (l₁ l₂ : List α) (u : α)
    (h1 : ∀ x ∈ l₁, p x = false) (hu : p u = true) :
    (l₁ ++ u :: l₂).find? p = some u := by
  induction l₁ with
  | nil => simp [List.find?_cons, hu]
  | cons a t ih =>
    have ha := h1 a (by simp)
    simpa [List.find?_cons, ha] using ih (fun x hx => h1 x (by simp [hx]))

/-- Conjoining a predicate that holds on every element does not change a
scan's result. -/
lemma find_and_of_all (p q : α → Bool) (l : List α)
    (hq : ∀ x ∈ l, q x = true) :
    l.find? (fun x => p x && q x) = l.find? p := by
  induction l with
  | nil => rfl
  | cons a t ih =>
    have ha := hq a (by simp)
    rw [List.find?_cons, List.find?_cons, ha, Bool.and_true]
    cases hpa : p a with
    | true => rfl
    | false => simpa using ih (fun x hx => hq x (by simp [hx]))

end Helpers

/-! ### Lengths and item views of the generated collections -/

lemma length_genOrgs (ids : Nat → String) (clock : Nat → Nat) :
    (genOrgs ids clock).length = 10 := by simp [genOrgs]

lemma length_genStudents (ids : Nat → String) (clock : Nat → Nat) :
    (genStudents ids clock).length = 1000 := by simp [genStudents]

lemma length_genTeachers (ids : Nat → String) (clock : Nat → Nat) :
    (genTeachers ids clock).length = 250 := by simp [genTeachers]

lemma length_genSessions (ids : Nat → String) (clock : Nat → Nat) :
    (genSessions ids clock).length = 4 := by simp [genSessions]

lemma length_genCourses (ids : Nat → String) (clock : Nat → Nat) :
    (genCourses ids clock).length = 50 := by simp [genCourses]

lemma length_genClasses (ids : Nat → String) (clock : Nat → Nat) :
    (genClasses ids clock).length = 500 := by simp [genClasses]

lemma genOrgs_getD (ids : Nat → String) (clock : Nat → Nat) {k : Nat}
    (h : k < 10) (d : Org) :
    (genOrgs ids clock).getD k d = orgAt ids clock k :=
  getD_range_map _ h d

lemma genCourses_getD (ids : Nat → String) (clock : Nat → Nat) {k : Nat}
    (h : k < 50) (d : Course) :
    (genCourses ids clock).getD k d = courseAt ids clock k :=
  getD_range_map _ h d

lemma genSessions_getD (ids : Nat → String) (clock : Nat → Nat) {k : Nat}
    (h : k < 4) (d : AcademicSession) :
    (genSessions ids clock).getD k d = sessionAt ids clock k :=
  getD_range_map _ h d

lemma users_getD_student (ids : Nat → String) (clock : Nat → Nat) {j : Nat}
    (h : j < 1000) (d : User) :
    (NewDataStore ids clock).users.getD j d = studentAt ids clock j := by
  show (genStudents ids clock ++ genTeachers ids clock).getD j d = _
  rw [List.getD_append _ _ _ _ (by rw [length_genStudents]; exact h)]
  exact getD_range_map _ h d

lemma users_getD_teacher (ids : Nat → String) (clock : Nat → Nat) {j : Nat}
    (h : j < 250) (d : User) :
    (NewDataStore ids clock).users.getD (1000 + j) d = teacherAt ids clock j := by
  show (genStudents ids clock ++ genTeachers ids clock).getD (1000 + j) d = _
  rw [List.getD_append_right _ _ _ _ (by rw [length_genStudents]; omega)]
  rw [length_genStudents]
  have : 1000 + j - 1000 = j := by omega
  rw [this]
  exact getD_range_map _ h d

set_option maxRecDepth 4000 in
lemma classes_getD (ids : Nat → String) (clock : Nat → Nat) {j : Nat}
    (h : j < 500) (d : Class) :
    (NewDataStore ids clock).classes.getD j d = classAt ids clock j := by
  show (genClasses ids clock).getD j d = _
  exact getD_range_map _ h d

/-! ### Concrete oracles for witness instances -/

/-- A concrete injective id oracle: n distinct characters. -/
def ids0 (n : Nat) : String := String.mk (List.replicate n 'a')

/-- A concrete clock oracle that never returns the zero time. -/
def clock0 (n : Nat) : Nat := n + 1

lemma ids0_injective : Function.Injective ids0 := by
  intro a b h
  have h2 := congrArg (fun s => s.data.length) h
  simpa [ids0] using h2

lemma clock0_ne_zero : ∀ n, clock0 n ≠ 0 := fun n => Nat.succ_ne_zero n

/-! ### Claim theorems -/

lemma mem_genStudents_role (ids : Nat → String) (clock : Nat → Nat) :
    ∀ u ∈ genStudents ids clock, u.role = "student" := by
  intro u hu
  obtain ⟨j, _, rfl⟩ := List.mem_map.mp hu
  rfl

lemma mem_genTeachers_role (ids : Nat → String) (clock : Nat → Nat) :
    ∀ u ∈ genTeachers ids clock, u.role = "teacher" := by
  intro u hu
  obtain ⟨j, _, rfl⟩ := List.mem_map.mp hu
  rfl

/-- Claim C1: the generated dataset always has exactly 10 Orgs, 1250 Users
(1000 with role "student" followed by 250 with role "teacher"), 4
AcademicSessions, 50 Courses, 500 Classes, 3 Categories, and 0
Enrollments. -/
theorem C1_cardinality (ids : Nat → String) (clock : Nat → Nat) :
    (NewDataStore ids clock).orgs.length = 10 ∧
    (NewDataStore ids clock).users.length = 1250 ∧
    ((NewDataStore ids clock).users.take 1000).length = 1000 ∧
    ((NewDataStore ids clock).users.take 1000).all (fun u => u.role == "student") = true ∧
    ((NewDataStore ids clock).users.drop 1000).length = 250 ∧
    ((NewDataStore ids clock).users.drop 1000).all (fun u => u.role == "teacher") = true ∧
    (NewDataStore ids clock).academicSessions.length = 4 ∧
    (NewDataStore ids clock).courses.length = 50 ∧
    (NewDataStore ids clock).classes.length = 500 ∧
    (NewDataStore ids clock).categories.length = 3 ∧
    (NewDataStore ids clock).enrollments.length = 0 := by
  have hu : (NewDataStore ids clock).users
      = genStudents ids clock ++ genTeachers ids clock := rfl
  have hlen : (genStudents ids clock).length = 1000 := length_genStudents ids clock
  have htake : (NewDataStore ids clock).users.take 1000 = genStudents ids clock := by
    rw [hu, ← hlen, List.take_left]
  have hdrop : (NewDataStore ids clock).users.drop 1000 = genTeachers ids clock := by
    rw [hu, ← hlen, List.drop_left]
  refine ⟨?_, ?_, ?_, ?_, ?_, ?_, ?_, ?_, ?_, ?_, ?_⟩
  · simp [NewDataStore, genOrgs]
  · rw [hu]; simp [genStudents, genTeachers]
  · rw [htake, hlen]
  · rw [htake]
    exact List.all_eq_true.mpr fun u hmem => by
      simp [mem_genStudents_role ids clock u hmem]
  · rw [hdrop]; exact length_genTeachers ids clock
  · rw [hdrop]
    exact List.all_eq_true.mpr fun u hmem => by
      simp [mem_genTeachers_role ids clock u hmem]
  · simp [NewDataStore, genSessions]
  · simp [NewDataStore, genCourses]
  · simp [NewDataStore, genClasses]
  · simp [NewDataStore, genCategories]
  · rfl

/-- Claim C2: the k-th generated User (1-indexed within its role group) is
assigned exactly one org reference, the org at 0-indexed position k mod 10
in generation order; the k-th generated Class references the course at
position k mod 50, the school at position k mod 10, and the single term at
position k mod 4. -/
theorem C2_round_robin (ids : Nat → String) (clock : Nat → Nat) (k : Nat) :
    (1 ≤ k → k ≤ 1000 →
      ((NewDataStore ids clock).users.getD (k - 1) default).orgs.map GUIDRef.sourcedId
        = [((NewDataStore ids clock).orgs.getD (k % 10) default).base.sourcedId]) ∧
    (1 ≤ k → k ≤ 250 →
      ((NewDataStore ids clock).users.getD (1000 + (k - 1)) default).orgs.map GUIDRef.sourcedId
        = [((NewDataStore ids clock).orgs.getD (k % 10) default).base.sourcedId]) ∧
    (1 ≤ k → k ≤ 500 →
      ((NewDataStore ids clock).classes.getD (k - 1) default).course.sourcedId
        = ((NewDataStore ids clock).courses.getD (k % 50) default).base.sourcedId ∧
      ((NewDataStore ids clock).classes.getD (k - 1) default).school.sourcedId
        = ((NewDataStore ids clock).orgs.getD (k % 10) default).base.sourcedId ∧
      ((NewDataStore ids clock).classes.getD (k - 1) default).terms.map GUIDRef.sourcedId
        = [((NewDataStore ids clock).academicSessions.getD (k % 4) default).base.sourcedId]) := by
  refine ⟨?_, ?_, ?_⟩
  · intro h1 h2
    have hk : k - 1 + 1 = k := by omega
    rw [users_getD_student ids clock (by omega) default]
    show (studentAt ids clock (k - 1)).orgs.map GUIDRef.sourcedId
      = [((genOrgs ids clock).getD (k % 10) default).base.sourcedId]
    simp only [studentAt, length_genOrgs, hk, List.map_cons, List.map_nil]
  · intro h1 h2
    have hk : k - 1 + 1 = k := by omega
    rw [users_getD_teacher ids clock (by omega) default]
    show (teacherAt ids clock (k - 1)).orgs.map GUIDRef.sourcedId
      = [((genOrgs ids clock).getD (k % 10) default).base.sourcedId]
    simp only [teacherAt, length_genOrgs, hk, List.map_cons, List.map_nil]
  · intro h1 h2
    have hk : k - 1 + 1 = k := by omega
    rw [classes_getD ids clock (by omega) default]
    refine ⟨?_, ?_, ?_⟩
    · show (classAt ids clock (k - 1)).course.sourcedId
        = ((genCourses ids clock).getD (k % 50) default).base.sourcedId
      simp only [classAt, length_genCourses, hk]
    · show (classAt ids clock (k - 1)).school.sourcedId
        = ((genOrgs ids clock).getD (k % 10) default).base.sourcedId
      simp only [classAt, length_genOrgs, hk]
    · show (classAt ids clock (k - 1)).terms.map GUIDRef.sourcedId
        = [((genSessions ids clock).getD (k % 4) default).base.sourcedId]
      simp only [classAt, length_genSessions, hk, List.map_cons, List.map_nil]

/-- Witness for C2 at a concrete id oracle, clock oracle and k = 3. -/
theorem C2_round_robin_witness :
    (1 ≤ 3 ∧ 3 ≤ 1000 ∧
      ((NewDataStore ids0 clock0).users.getD (3 - 1) default).orgs.map GUIDRef.sourcedId
        = [((NewDataStore ids0 clock0).orgs.getD (3 % 10) default).base.sourcedId]) ∧
    (1 ≤ 3 ∧ 3 ≤ 250 ∧
      ((NewDataStore ids0 clock0).users.getD (1000 + (3 - 1)) default).orgs.map GUIDRef.sourcedId
        = [((NewDataStore ids0 clock0).orgs.getD (3 % 10) default).base.sourcedId]) ∧
    (1 ≤ 3 ∧ 3 ≤ 500 ∧
      (((NewDataStore ids0 clock0).classes.getD (3 - 1) default).course.sourcedId
        = ((NewDataStore ids0 clock0).courses.getD (3 % 50) default).base.sourcedId ∧
      ((NewDataStore ids0 clock0).classes.getD (3 - 1) default).school.sourcedId
        = ((NewDataStore ids0 clock0).orgs.getD (3 % 10) default).base.sourcedId ∧
      ((NewDataStore ids0 clock0).classes.getD (3 - 1) default).terms.map GUIDRef.sourcedId
        = [((NewDataStore ids0 clock0).academicSessions.getD (3 % 4) default).base.sourcedId])) :=
  ⟨⟨by decide, by decide, (C2_round_robin ids0 clock0 3).1 (by decide) (by decide)⟩,
   ⟨by decide, by decide, (C2_round_robin ids0 clock0 3).2.1 (by decide) (by decide)⟩,
   ⟨by decide, by decide, (C2_round_robin ids0 clock0 3).2.2 (by decide) (by decide)⟩⟩

lemma ds_orgs_len (ids : Nat → String) (clock : Nat → Nat) :
    (NewDataStore ids clock).orgs.length = 10 := length_genOrgs ids clock

lemma ds_courses_len (ids : Nat → String) (clock : Nat → Nat) :
    (NewDataStore ids clock).courses.length = 50 := length_genCourses ids clock

lemma ds_sessions_len (ids : Nat → String) (clock : Nat → Nat) :
    (NewDataStore ids clock).academicSessions.length = 4 := length_genSessions ids clock

lemma studentAt_orgs_map (ids : Nat → String) (clock : Nat → Nat) (j : Nat) :
    (studentAt ids clock j).orgs.map GUIDRef.sourcedId
      = [((genOrgs ids clock).getD ((j + 1) % 10) default).base.sourcedId] := by
  simp only [studentAt, length_genOrgs, List.map_cons, List.map_nil]

lemma teacherAt_orgs_map (ids : Nat → String) (clock : Nat → Nat) (j : Nat) :
    (teacherAt ids clock j).orgs.map GUIDRef.sourcedId
      = [((genOrgs ids clock).getD ((j + 1) % 10) default).base.sourcedId] := by
  simp only [teacherAt, length_genOrgs, List.map_cons, List.map_nil]

lemma classAt_course_sourcedId (ids : Nat → String) (clock : Nat → Nat) (j : Nat) :
    (classAt ids clock j).course.sourcedId
      = ((genCourses ids clock).getD ((j + 1) % 50) default).base.sourcedId := by
  simp only [classAt, length_genCourses]

lemma classAt_school_sourcedId (ids : Nat → String) (clock : Nat → Nat) (j : Nat) :
    (classAt ids clock j).school.sourcedId
      = ((genOrgs ids clock).getD ((j + 1) % 10) default).base.sourcedId := by
  simp only [classAt, length_genOrgs]

lemma classAt_terms_map (ids : Nat → String) (clock : Nat → Nat) (j : Nat) :
    (classAt ids clock j).terms.map GUIDRef.sourcedId
      = [((genSessions ids clock).getD ((j + 1) % 4) default).base.sourcedId] := by
  simp only [classAt, length_genSessions, List.map_cons, List.map_nil]

/-- Claim C3: every User's org reference resolves to an Org of the Orgs
collection, and every Class's course, school, and term references resolve
to records of the Courses, Orgs, and AcademicSessions collections. -/
theorem C3_referential_validity (ids : Nat → String) (clock : Nat → Nat) :
    (∀ u ∈ (NewDataStore ids clock).users, ∀ r ∈ u.orgs,
       ∃ o ∈ (NewDataStore ids clock).orgs, o.base.sourcedId = r.sourcedId) ∧
    (∀ c ∈ (NewDataStore ids clock).classes,
       (∃ co ∈ (NewDataStore ids clock).courses,
          co.base.sourcedId = c.course.sourcedId) ∧
       (∃ o ∈ (NewDataStore ids clock).orgs,
          o.base.sourcedId = c.school.sourcedId) ∧
       (∀ r ∈ c.terms, ∃ s ∈ (NewDataStore ids clock).academicSessions,
          s.base.sourcedId = r.sourcedId)) := by
  constructor
  · intro u hu r hr
    have hu' : u ∈ genStudents ids clock ++ genTeachers ids clock := hu
    rcases List.mem_append.mp hu' with hs | ht
    · obtain ⟨j, _, rfl⟩ := List.mem_map.mp hs
      have hmap : r.sourcedId ∈ (studentAt ids clock j).orgs.map GUIDRef.sourcedId :=
        List.mem_map_of_mem _ hr
      rw [studentAt_orgs_map] at hmap
      have hx : r.sourcedId
          = ((genOrgs ids clock).getD ((j + 1) % 10) default).base.sourcedId := by
        simpa using hmap
      exact ⟨_, getD_mem (by rw [ds_orgs_len]; exact Nat.mod_lt _ (by norm_num)) _,
        hx.symm⟩
    · obtain ⟨j, _, rfl⟩ := List.mem_map.mp ht
      have hmap : r.sourcedId ∈ (teacherAt ids clock j).orgs.map GUIDRef.sourcedId :=
        List.mem_map_of_mem _ hr
      rw [teacherAt_orgs_map] at hmap
      have hx : r.sourcedId
          = ((genOrgs ids clock).getD ((j + 1) % 10) default).base.sourcedId := by
        simpa using hmap
      exact ⟨_, getD_mem (by rw [ds_orgs_len]; exact Nat.mod_lt _ (by norm_num)) _,
        hx.symm⟩
  · intro c hc
    have hc' : c ∈ genClasses ids clock := hc
    obtain ⟨j, _, rfl⟩ := List.mem_map.mp hc'
    refine ⟨⟨_, getD_mem (by rw [ds_courses_len]; exact Nat.mod_lt _ (by norm_num)) _,
        (classAt_course_sourcedId ids clock j).symm⟩,
      ⟨_, getD_mem (by rw [ds_orgs_len]; exact Nat.mod_lt _ (by norm_num)) _,
        (classAt_school_sourcedId ids clock j).symm⟩, ?_⟩
    intro r hr
    have hmap : r.sourcedId ∈ (classAt ids clock j).terms.map GUIDRef.sourcedId :=
      List.mem_map_of_mem _ hr
    rw [classAt_terms_map] at hmap
    have hx : r.sourcedId
        = ((genSessions ids clock).getD ((j + 1) % 4) default).base.sourcedId := by
      simpa using hmap
    exact ⟨_, getD_mem (by rw [ds_sessions_len]; exact Nat.mod_lt _ (by norm_num)) _,
      hx.symm⟩

/-- Witness for C3 at concrete oracles: the first student's org reference
and the first class's course reference resolve. -/
theorem C3_referential_validity_witness :
    (∃ o ∈ (NewDataStore ids0 clock0).orgs,
       o.base.sourcedId = ((studentAt ids0 clock0 0).orgs.getD 0 default).sourcedId) ∧
    (∃ co ∈ (NewDataStore ids0 clock0).courses,
       co.base.sourcedId = (classAt ids0 clock0 0).course.sourcedId) := by
  constructor
  · refine (C3_referential_validity ids0 clock0).1 (studentAt ids0 clock0 0) ?_ _ ?_
    · exact List.mem_append_left _
        (List.mem_map.mpr ⟨0, List.mem_range.mpr (by norm_num), rfl⟩)
    · exact getD_mem (h := by show 0 < 1; norm_num) default
  · refine (((C3_referential_validity ids0 clock0).2 (classAt ids0 clock0 0)) ?_).1
    exact List.mem_map.mpr ⟨0, List.mem_range.mpr (by norm_num), rfl⟩

/-! ### Sample records for closed witness instances (arbitrary store
contents; the lookup theorems hold for every `DataStore`). -/

def bm0 (s : String) : BaseModel :=
  { sourcedId := s, status := "active", dateLastModified := 1, metadata := none }

def sampleOrg : Org :=
  { base := bm0 "x1", name := "Org", type := "school", identifier := "SCH001",
    parent := none, children := [] }

def sampleStudent : User :=
  { base := bm0 "x1", username := "stu", userIds := [], enabledUser := true,
    givenName := "S", familyName := "U", role := "student",
    identifier := "STU0001", email := "s@example.com", orgs := [] }

def sampleTeacher : User :=
  { base := bm0 "x1", username := "tea", userIds := [], enabledUser := true,
    givenName := "T", familyName := "U", role := "teacher",
    identifier := "TCH0001", email := "t@example.com", orgs := [] }

def sampleCourse : Course :=
  { base := bm0 "x1", title := "Course", schoolYear := none,
    courseCode := "CRS001", grades := [], subjects := [], subjectCodes := [],
    resources := [] }

def sampleClass : Class :=
  { base := bm0 "x1", title := "Course", classCode := "CRS001-S1",
    classType := "scheduled", location := "", grades := [], subjects := [],
    course := ⟨"", "x1", "course"⟩, school := ⟨"", "x1", "school"⟩,
    terms := [], subjectCodes := [], periods := [], resources := [] }

def sampleEnrollment : Enrollment :=
  { base := bm0 "x1", user := ⟨"", "x1", "user"⟩, classRef := ⟨"", "x1", "class"⟩,
    school := ⟨"", "x1", "school"⟩, role := "student", primary := true,
    beginDate := "", endDate := "" }

def sampleTerm : AcademicSession :=
  { base := bm0 "x1", title := "Term", startDate := "", endDate := "",
    type := "term", parent := none, children := [], schoolYear := "2025" }

def sampleGradingPeriod : AcademicSession :=
  { base := bm0 "x1", title := "GP", startDate := "", endDate := "",
    type := "gradingPeriod", parent := none, children := [], schoolYear := "2025" }

def ds0 : DataStore :=
  { orgs := [sampleOrg], users := [sampleStudent, sampleTeacher],
    courses := [sampleCourse], classes := [sampleClass],
    enrollments := [sampleEnrollment],
    academicSessions := [sampleTerm, sampleGradingPeriod], categories := [] }

/-- Claim C4: every get-by-id handler scans its collection linearly: if
some record of the collection has the requested sourcedId (and satisfies
the handler's fixed predicate where there is one), the lookup succeeds
with a record carrying that sourcedId; if no record has the sourcedId, it
yields exactly the typed Not-Found outcome with the handler's message.
The last two conjuncts state firstness: the scan returns the first
matching record. -/
theorem C4_lookup (ds : DataStore) (id : String) :
    ((∃ o ∈ ds.orgs, o.base.sourcedId = id) →
       ∃ o, getOrg ds id = .ok o ∧ o.base.sourcedId = id) ∧
    ((∀ o ∈ ds.orgs, o.base.sourcedId ≠ id) →
       getOrg ds id = .notFound "Org not found") ∧
    ((∃ o ∈ ds.orgs, o.base.sourcedId = id ∧ o.type = "school") →
       ∃ o, getSchool ds id = .ok o ∧ o.base.sourcedId = id) ∧
    ((∀ o ∈ ds.orgs, o.base.sourcedId ≠ id) →
       getSchool ds id = .notFound "School not found") ∧
    ((∃ u ∈ ds.users, u.base.sourcedId = id) →
       ∃ u, getUser ds id = .ok u ∧ u.base.sourcedId = id) ∧
    ((∀ u ∈ ds.users, u.base.sourcedId ≠ id) →
       getUser ds id = .notFound "User not found") ∧
    ((∃ u ∈ ds.users, u.base.sourcedId = id ∧ u.role = "teacher") →
       ∃ u, getTeacher ds id = .ok u ∧ u.base.sourcedId = id) ∧
    ((∀ u ∈ ds.users, u.base.sourcedId ≠ id) →
       getTeacher ds id = .notFound "Teacher not found") ∧
    ((∃ u ∈ ds.users, u.base.sourcedId = id ∧ u.role = "student") →
       ∃ u, getStudent ds id = .ok u ∧ u.base.sourcedId = id) ∧
    ((∀ u ∈ ds.users, u.base.sourcedId ≠ id) →
       getStudent ds id = .notFound "Student not found") ∧
    ((∃ c ∈ ds.courses, c.base.sourcedId = id) →
       ∃ c, getCourse ds id = .ok c ∧ c.base.sourcedId = id) ∧
    ((∀ c ∈ ds.courses, c.base.sourcedId ≠ id) →
       getCourse ds id = .notFound "Course not found") ∧
    ((∃ c ∈ ds.classes, c.base.sourcedId = id) →
       ∃ c, getClass ds id = .ok c ∧ c.base.sourcedId = id) ∧
    ((∀ c ∈ ds.classes, c.base.sourcedId ≠ id) →
       getClass ds id = .notFound "Class not found") ∧
    ((∃ e ∈ ds.enrollments, e.base.sourcedId = id) →
       ∃ e, getEnrollment ds id = .ok e ∧ e.base.sourcedId = id) ∧
    ((∀ e ∈ ds.enrollments, e.base.sourcedId ≠ id) →
       getEnrollment ds id = .notFound "Enrollment not found") ∧
    ((∃ s ∈ ds.academicSessions, s.base.sourcedId = id ∧ s.type = "term") →
       ∃ s, getTerm ds id = .ok s ∧ s.base.sourcedId = id) ∧
    ((∀ s ∈ ds.academicSessions, s.base.sourcedId ≠ id) →
       getTerm ds id = .notFound "Term not found") ∧
    ((∃ s ∈ ds.academicSessions, s.base.sourcedId = id) →
       ∃ s, getAcademicSession ds id = .ok s ∧ s.base.sourcedId = id) ∧
    ((∀ s ∈ ds.academicSessions, s.base.sourcedId ≠ id) →
       getAcademicSession ds id = .notFound "Academic Session not found") ∧
    ((∃ s ∈ ds.academicSessions, s.base.sourcedId = id ∧ s.type = "gradingPeriod") →
       ∃ s, getGradingPeriod ds id = .ok s ∧ s.base.sourcedId = id) ∧
    ((∀ s ∈ ds.academicSessions, s.base.sourcedId ≠ id) →
       getGradingPeriod ds id = .notFound "Grading Period not found") ∧
    (∀ l₁ u l₂, ds.users = l₁ ++ u :: l₂ → u.base.sourcedId = id →
       (∀ x ∈ l₁, x.base.sourcedId ≠ id) → getUser ds id = .ok u) ∧
    (∀ l₁ u l₂, ds.users = l₁ ++ u :: l₂ → u.base.sourcedId = id →
       u.role = "teacher" →
       (∀ x ∈ l₁, ¬(x.base.sourcedId = id ∧ x.role = "teacher")) →
       getTeacher ds id = .ok u) := by
  refine ⟨?_, ?_, ?_, ?_, ?_, ?_, ?_, ?_, ?_, ?_, ?_, ?_, ?_, ?_, ?_, ?_, ?_, ?_,
    ?_, ?_, ?_, ?_, ?_, ?_⟩
  · intro h
    obtain ⟨y, hy, hid⟩ := find_id_isSome (fun o => o.base.sourcedId) ds.orgs id h
    exact ⟨y, by simp [getOrg, hy], hid⟩
  · intro h
    simp [getOrg, find_id_none (fun o => o.base.sourcedId) ds.orgs id h]
  · intro h
    obtain ⟨o, ho, h1, h2⟩ := h
    obtain ⟨y, hy, hid⟩ := find_idp_isSome (fun o => o.base.sourcedId)
      (fun o => o.type == "school") ds.orgs id ⟨o, ho, h1, by simp [h2]⟩
    exact ⟨y, by simp [getSchool, hy], hid⟩
  · intro h
    simp [getSchool, find_idp_none (fun o => o.base.sourcedId)
      (fun o => o.type == "school") ds.orgs id h]
  · intro h
    obtain ⟨y, hy, hid⟩ := find_id_isSome (fun u => u.base.sourcedId) ds.users id h
    exact ⟨y, by simp [getUser, hy], hid⟩
  · intro h
    simp [getUser, find_id_none (fun u => u.base.sourcedId) ds.users id h]
  · intro h
    obtain ⟨u, hu, h1, h2⟩ := h
    obtain ⟨y, hy, hid⟩ := find_idp_isSome (fun u => u.base.sourcedId)
      (fun u => u.role == "teacher") ds.users id ⟨u, hu, h1, by simp [h2]⟩
    exact ⟨y, by simp [getTeacher, hy], hid⟩
  · intro h
    simp [getTeacher, find_idp_none (fun u => u.base.sourcedId)
      (fun u => u.role == "teacher") ds.users id h]
  · intro h
    obtain ⟨u, hu, h1, h2⟩ := h
    obtain ⟨y, hy, hid⟩ := find_idp_isSome (fun u => u.base.sourcedId)
      (fun u => u.role == "student") ds.users id ⟨u, hu, h1, by simp [h2]⟩
    exact ⟨y, by simp [getStudent, hy], hid⟩
  · intro h
    simp [getStudent, find_idp_none (fun u => u.base.sourcedId)
      (fun u => u.role == "student") ds.users id h]
  · intro h
    obtain ⟨y, hy, hid⟩ := find_id_isSome (fun c => c.base.sourcedId) ds.courses id h
    exact ⟨y, by simp [getCourse, hy], hid⟩
  · intro h
    simp [getCourse, find_id_none (fun c => c.base.sourcedId) ds.courses id h]
  · intro h
    obtain ⟨y, hy, hid⟩ := find_id_isSome (fun c => c.base.sourcedId) ds.classes id h
    exact ⟨y, by simp [getClass, hy], hid⟩
  · intro h
    simp [getClass, find_id_none (fun c => c.base.sourcedId) ds.classes id h]
  · intro h
    obtain ⟨y, hy, hid⟩ := find_id_isSome (fun e => e.base.sourcedId)
      ds.enrollments id h
    exact ⟨y, by simp [getEnrollment, hy], hid⟩
  · intro h
    simp [getEnrollment, find_id_none (fun e => e.base.sourcedId) ds.enrollments id h]
  · intro h
    obtain ⟨s, hs, h1, h2⟩ := h
    obtain ⟨y, hy, hid⟩ := find_idp_isSome (fun s => s.base.sourcedId)
      (fun s => s.type == "term") ds.academicSessions id ⟨s, hs, h1, by simp [h2]⟩
    exact ⟨y, by simp [getTerm, hy], hid⟩
  · intro h
    simp [getTerm, find_idp_none (fun s => s.base.sourcedId)
      (fun s => s.type == "term") ds.academicSessions id h]
  · intro h
    obtain ⟨y, hy, hid⟩ := find_id_isSome (fun s => s.base.sourcedId)
      ds.academicSessions id h
    exact ⟨y, by simp [getAcademicSession, hy], hid⟩
  · intro h
    simp [getAcademicSession, find_id_none (fun s => s.base.sourcedId)
      ds.academicSessions id h]
  · intro h
    obtain ⟨s, hs, h1, h2⟩ := h
    obtain ⟨y, hy, hid⟩ := find_idp_isSome (fun s => s.base.sourcedId)
      (fun s => s.type == "gradingPeriod") ds.academicSessions id
      ⟨s, hs, h1, by simp [h2]⟩
    exact ⟨y, by simp [getGradingPeriod, hy], hid⟩
  · intro h
    simp [getGradingPeriod, find_idp_none (fun s => s.base.sourcedId)
      (fun s => s.type == "gradingPeriod") ds.academicSessions id h]
  · intro l₁ u l₂ heq hid hno
    have hf : ds.users.find? (fun x => x.base.sourcedId == id) = some u := by
      rw [heq]
      apply find_append_first
      · intro x hx
        simp [hno x hx]
      · simp [hid]
    simp [getUser, hf]
  · intro l₁ u l₂ heq hid hrole hno
    have hf : ds.users.find?
        (fun x => x.base.sourcedId == id && x.role == "teacher") = some u := by
      rw [heq]
      apply find_append_first
      · intro x hx
        have hx2 := hno x hx
        by_cases hxs : x.base.sourcedId = id
        · have hxr : x.role ≠ "teacher" := fun hr => hx2 ⟨hxs, hr⟩
          simp [hxr]
        · simp [hxs]
      · simp [hid, hrole]
    simp [getTeacher, hf]

/-- Witness for C4 on a concrete store: each present id succeeds, each
absent id yields the typed Not-Found message, and the scans return the
first match. -/
theorem C4_lookup_witness :
    (∃ o, getOrg ds0 "x1" = .ok o ∧ o.base.sourcedId = "x1") ∧
    (getOrg ds0 "zz" = .notFound "Org not found") ∧
    (∃ o, getSchool ds0 "x1" = .ok o ∧ o.base.sourcedId = "x1") ∧
    (getSchool ds0 "zz" = .notFound "School not found") ∧
    (∃ u, getUser ds0 "x1" = .ok u ∧ u.base.sourcedId = "x1") ∧
    (getUser ds0 "zz" = .notFound "User not found") ∧
    (∃ u, getTeacher ds0 "x1" = .ok u ∧ u.base.sourcedId = "x1") ∧
    (getTeacher ds0 "zz" = .notFound "Teacher not found") ∧
    (∃ u, getStudent ds0 "x1" = .ok u ∧ u.base.sourcedId = "x1") ∧
    (getStudent ds0 "zz" = .notFound "Student not found") ∧
    (∃ c, getCourse ds0 "x1" = .ok c ∧ c.base.sourcedId = "x1") ∧
    (getCourse ds0 "zz" = .notFound "Course not found") ∧
    (∃ c, getClass ds0 "x1" = .ok c ∧ c.base.sourcedId = "x1") ∧
    (getClass ds0 "zz" = .notFound "Class not found") ∧
    (∃ e, getEnrollment ds0 "x1" = .ok e ∧ e.base.sourcedId = "x1") ∧
    (getEnrollment ds0 "zz" = .notFound "Enrollment not found") ∧
    (∃ s, getTerm ds0 "x1" = .ok s ∧ s.base.sourcedId = "x1") ∧
    (getTerm ds0 "zz" = .notFound "Term not found") ∧
    (∃ s, getAcademicSession ds0 "x1" = .ok s ∧ s.base.sourcedId = "x1") ∧
    (getAcademicSession ds0 "zz" = .notFound "Academic Session not found") ∧
    (∃ s, getGradingPeriod ds0 "x1" = .ok s ∧ s.base.sourcedId = "x1") ∧
    (getGradingPeriod ds0 "zz" = .notFound "Grading Period not found") ∧
    (getUser ds0 "x1" = .ok sampleStudent) ∧
    (getTeacher ds0 "x1" = .ok sampleTeacher) := by
  obtain ⟨a1, -, a2, -, a3, -, a4, -, a5, -, a6, -, a7, -, a8, -, a9, -, a10, -,
    a11, -, f1, f2⟩ := C4_lookup ds0 "x1"
  obtain ⟨-, b1, -, b2, -, b3, -, b4, -, b5, -, b6, -, b7, -, b8, -, b9, -, b10,
    -, b11, -, -⟩ := C4_lookup ds0 "zz"
  exact ⟨a1 (by decide), b1 (by decide), a2 (by decide), b2 (by decide),
    a3 (by decide), b3 (by decide), a4 (by decide), b4 (by decide),
    a5 (by decide), b5 (by decide), a6 (by decide), b6 (by decide),
    a7 (by decide), b7 (by decide), a8 (by decide), b8 (by decide),
    a9 (by decide), b9 (by decide), a10 (by decide), b10 (by decide),
    a11 (by decide), b11 (by decide),
    f1 [] sampleStudent [sampleTeacher] rfl (by decide) (by decide),
    f2 [sampleStudent] sampleTeacher [] rfl (by decide) (by decide) (by decide)⟩

/-- Claim C5: every filtered list operation returns exactly the
subsequence of the corresponding list-all result whose records satisfy
the fixed predicate, in the same relative order (teachers and students
against users; schools against orgs; terms and grading periods against
academic sessions). -/
theorem C5_filter_consistency (ds : DataStore) :
    (∃ ts us, getTeachers ds = .ok ts ∧ getUsers ds = .ok us ∧
       ts.Sublist us ∧ ∀ u, u ∈ ts ↔ (u ∈ us ∧ u.role = "teacher")) ∧
    (∃ ss us, getStudents ds = .ok ss ∧ getUsers ds = .ok us ∧
       ss.Sublist us ∧ ∀ u, u ∈ ss ↔ (u ∈ us ∧ u.role = "student")) ∧
    (∃ sc os, getSchools ds = .ok sc ∧ getOrgs ds = .ok os ∧
       sc.Sublist os ∧ ∀ o, o ∈ sc ↔ (o ∈ os ∧ o.type = "school")) ∧
    (∃ ts sess, getTerms ds = .ok ts ∧ getAcademicSessions ds = .ok sess ∧
       ts.Sublist sess ∧ ∀ s, s ∈ ts ↔ (s ∈ sess ∧ s.type = "term")) ∧
    (∃ gs sess, getGradingPeriods ds = .ok gs ∧ getAcademicSessions ds = .ok sess ∧
       gs.Sublist sess ∧ ∀ s, s ∈ gs ↔ (s ∈ sess ∧ s.type = "gradingPeriod")) := by
  refine ⟨⟨_, _, rfl, rfl, List.filter_sublist _, fun u => ?_⟩,
    ⟨_, _, rfl, rfl, List.filter_sublist _, fun u => ?_⟩,
    ⟨_, _, rfl, rfl, List.filter_sublist _, fun o => ?_⟩,
    ⟨_, _, rfl, rfl, List.filter_sublist _, fun s => ?_⟩,
    ⟨_, _, rfl, rfl, List.filter_sublist _, fun s => ?_⟩⟩ <;>
  simp [List.mem_filter]

/-- Witness for C5 at a concrete store. -/
theorem C5_filter_consistency_witness :
    (∃ ts us, getTeachers ds0 = .ok ts ∧ getUsers ds0 = .ok us ∧
       ts.Sublist us ∧ ∀ u, u ∈ ts ↔ (u ∈ us ∧ u.role = "teacher")) ∧
    (∃ ss us, getStudents ds0 = .ok ss ∧ getUsers ds0 = .ok us ∧
       ss.Sublist us ∧ ∀ u, u ∈ ss ↔ (u ∈ us ∧ u.role = "student")) ∧
    (∃ sc os, getSchools ds0 = .ok sc ∧ getOrgs ds0 = .ok os ∧
       sc.Sublist os ∧ ∀ o, o ∈ sc ↔ (o ∈ os ∧ o.type = "school")) ∧
    (∃ ts sess, getTerms ds0 = .ok ts ∧ getAcademicSessions ds0 = .ok sess ∧
       ts.Sublist sess ∧ ∀ s, s ∈ ts ↔ (s ∈ sess ∧ s.type = "term")) ∧
    (∃ gs sess, getGradingPeriods ds0 = .ok gs ∧ getAcademicSessions ds0 = .ok sess ∧
       gs.Sublist sess ∧ ∀ s, s ∈ gs ↔ (s ∈ sess ∧ s.type = "gradingPeriod")) :=
  C5_filter_consistency ds0

/-- Claim C6: for every class id, including ids matching no Class, the
categories-for-class operation returns the whole 3-item global Categories
collection with a success outcome; the id never affects the result. -/
theorem C6_categories_global (ids : Nat → String) (clock : Nat → Nat) (id : String) :
    getCategoriesForClass (NewDataStore ids clock) id
      = .ok (NewDataStore ids clock).categories ∧
    (NewDataStore ids clock).categories.length = 3 ∧
    (∀ id2, getCategoriesForClass (NewDataStore ids clock) id
      = getCategoriesForClass (NewDataStore ids clock) id2) :=
  ⟨rfl, rfl, fun _ => rfl⟩

/-- Claim C7: on the generated dataset the enrollments list is empty,
enrollment lookup is Not-Found for every id, and the grading-periods list
is an empty success (no generated session has type "gradingPeriod"). -/
theorem C7_empty_collections (ids : Nat → String) (clock : Nat → Nat) :
    getEnrollments (NewDataStore ids clock) = .ok [] ∧
    (∀ id, getEnrollment (NewDataStore ids clock) id
      = .notFound "Enrollment not found") ∧
    getGradingPeriods (NewDataStore ids clock) = .ok [] := by
  refine ⟨rfl, fun id => rfl, ?_⟩
  have hfil : (genSessions ids clock).filter (fun s => s.type == "gradingPeriod")
      = [] := by
    apply List.filter_eq_nil_iff.mpr
    intro s hs
    obtain ⟨j, -, rfl⟩ := List.mem_map.mp hs
    simp [sessionAt]
  show ApiResult.ok ((genSessions ids clock).filter (fun s => s.type == "gradingPeriod"))
    = ApiResult.ok []
  rw [hfil]

lemma nodup_map_range (ids : Nat → String) (hinj : Function.Injective ids)
    (f : Nat → Nat) (hf : Function.Injective f) (n : Nat) :
    ((List.range n).map (fun j => ids (f j))).Nodup :=
  (List.nodup_range n).map (by intro a b h; exact hf (hinj h))

/-- Claim C8: within each generated collection, the sourcedId values of
all records are pairwise distinct (given that the uuid oracle never
repeats an id). -/
theorem C8_unique_sourcedIds (ids : Nat → String) (clock : Nat → Nat)
    (hinj : Function.Injective ids) :
    ((NewDataStore ids clock).orgs.map (fun o => o.base.sourcedId)).Nodup ∧
    ((NewDataStore ids clock).users.map (fun u => u.base.sourcedId)).Nodup ∧
    ((NewDataStore ids clock).courses.map (fun c => c.base.sourcedId)).Nodup ∧
    ((NewDataStore ids clock).classes.map (fun c => c.base.sourcedId)).Nodup ∧
    ((NewDataStore ids clock).academicSessions.map
       (fun s => s.base.sourcedId)).Nodup ∧
    ((NewDataStore ids clock).categories.map (fun c => c.base.sourcedId)).Nodup := by
  have hstu : (genStudents ids clock).map (fun u => u.base.sourcedId)
      = (List.range 1000).map (fun j => ids (studentIdx j)) := by
    show ((List.range 1000).map (studentAt ids clock)).map (fun u => u.base.sourcedId)
      = _
    rw [List.map_map]; rfl
  have htea : (genTeachers ids clock).map (fun u => u.base.sourcedId)
      = (List.range 250).map (fun j => ids (teacherIdx j)) := by
    show ((List.range 250).map (teacherAt ids clock)).map (fun u => u.base.sourcedId)
      = _
    rw [List.map_map]; rfl
  refine ⟨?_, ?_, ?_, ?_, ?_, ?_⟩
  · have horgs : (NewDataStore ids clock).orgs.map (fun o => o.base.sourcedId)
        = (List.range 10).map (fun j => ids (orgIdx j)) := by
      show ((List.range 10).map (orgAt ids clock)).map (fun o => o.base.sourcedId) = _
      rw [List.map_map]; rfl
    rw [horgs]
    exact nodup_map_range ids hinj orgIdx (by intro a b h; exact h) 10
  · show ((genStudents ids clock ++ genTeachers ids clock).map
      (fun u => u.base.sourcedId)).Nodup
    rw [List.map_append, hstu, htea]
    refine List.nodup_append.mpr
      ⟨nodup_map_range ids hinj studentIdx
        (by intro a b h; simp only [studentIdx] at h; omega) 1000,
       nodup_map_range ids hinj teacherIdx
        (by intro a b h; simp only [teacherIdx] at h; omega) 250, ?_⟩
    intro x hx1 hx2
    obtain ⟨j, hj, rfl⟩ := List.mem_map.mp hx1
    obtain ⟨j2, -, hx⟩ := List.mem_map.mp hx2
    have h2 := hinj hx
    simp only [studentIdx, teacherIdx] at h2
    have hj' := List.mem_range.mp hj
    omega
  · have hcrs : (NewDataStore ids clock).courses.map (fun c => c.base.sourcedId)
        = (List.range 50).map (fun j => ids (courseIdx j)) := by
      show ((List.range 50).map (courseAt ids clock)).map (fun c => c.base.sourcedId)
        = _
      rw [List.map_map]; rfl
    rw [hcrs]
    exact nodup_map_range ids hinj courseIdx
      (by intro a b h; simp only [courseIdx] at h; omega) 50
  · have hcls : (NewDataStore ids clock).classes.map (fun c => c.base.sourcedId)
        = (List.range 500).map (fun j => ids (classIdx j)) := by
      show ((List.range 500).map (classAt ids clock)).map (fun c => c.base.sourcedId)
        = _
      rw [List.map_map]; rfl
    rw [hcls]
    exact nodup_map_range ids hinj classIdx
      (by intro a b h; simp only [classIdx] at h; omega) 500
  · have hses : (NewDataStore ids clock).academicSessions.map
        (fun s => s.base.sourcedId)
        = (List.range 4).map (fun j => ids (sessionIdx j)) := by
      show ((List.range 4).map (sessionAt ids clock)).map (fun s => s.base.sourcedId)
        = _
      rw [List.map_map]; rfl
    rw [hses]
    exact nodup_map_range ids hinj sessionIdx
      (by intro a b h; simp only [sessionIdx] at h; omega) 4
  · have hcat : (NewDataStore ids clock).categories.map (fun c => c.base.sourcedId)
        = [ids 1814, ids 1815, ids 1816] := rfl
    rw [hcat]
    refine List.nodup_cons.mpr ⟨?_, List.nodup_cons.mpr
      ⟨?_, List.nodup_singleton _⟩⟩
    · intro hmem
      rcases List.mem_cons.mp hmem with h | h
      · exact absurd (hinj h) (by norm_num)
      · exact absurd (hinj (List.mem_singleton.mp h)) (by norm_num)
    · intro hmem
      exact absurd (hinj (List.mem_singleton.mp hmem)) (by norm_num)

/-- Witness for C8 at a concrete injective id oracle. -/
theorem C8_unique_sourcedIds_witness :
    Function.Injective ids0 ∧
    (((NewDataStore ids0 clock0).orgs.map (fun o => o.base.sourcedId)).Nodup ∧
    ((NewDataStore ids0 clock0).users.map (fun u => u.base.sourcedId)).Nodup ∧
    ((NewDataStore ids0 clock0).courses.map (fun c => c.base.sourcedId)).Nodup ∧
    ((NewDataStore ids0 clock0).classes.map (fun c => c.base.sourcedId)).Nodup ∧
    ((NewDataStore ids0 clock0).academicSessions.map
       (fun s => s.base.sourcedId)).Nodup ∧
    ((NewDataStore ids0 clock0).categories.map
       (fun c => c.base.sourcedId)).Nodup) :=
  ⟨ids0_injective, C8_unique_sourcedIds ids0 clock0 ids0_injective⟩

/-- Counterexample to C9 as stated: the generated Categories carry a
`dateLastModified` left at its zero value (the Go code sets only
`SourcedId` in their `BaseModel`), so not every record of every generated
collection has a creation timestamp. -/
theorem C9_base_fields_counterexample :
    ¬ (∀ c ∈ (NewDataStore ids0 clock0).categories,
        c.base.dateLastModified ≠ 0) := by
  intro h
  exact h ((NewDataStore ids0 clock0).categories.getD 0 default)
    (getD_mem (by show 0 < 3; norm_num) default) rfl

/-- Claim C9 as amended: every record of the Orgs, Users, Courses,
Classes, and AcademicSessions collections carries status "active" and a
nonzero creation timestamp, while the three Categories carry only a
generated sourcedId, with status left at the empty string and
dateLastModified left at its zero value. -/
theorem C9_base_fields_amended (ids : Nat → String) (clock : Nat → Nat)
    (hclock : ∀ n, clock n ≠ 0) :
    (∀ o ∈ (NewDataStore ids clock).orgs,
       o.base.status = "active" ∧ o.base.dateLastModified ≠ 0) ∧
    (∀ u ∈ (NewDataStore ids clock).users,
       u.base.status = "active" ∧ u.base.dateLastModified ≠ 0) ∧
    (∀ c ∈ (NewDataStore ids clock).courses,
       c.base.status = "active" ∧ c.base.dateLastModified ≠ 0) ∧
    (∀ c ∈ (NewDataStore ids clock).classes,
       c.base.status = "active" ∧ c.base.dateLastModified ≠ 0) ∧
    (∀ s ∈ (NewDataStore ids clock).academicSessions,
       s.base.status = "active" ∧ s.base.dateLastModified ≠ 0) ∧
    (∀ c ∈ (NewDataStore ids clock).categories,
       c.base.status = "" ∧ c.base.dateLastModified = 0) := by
  refine ⟨?_, ?_, ?_, ?_, ?_, ?_⟩
  · intro o ho
    obtain ⟨j, -, rfl⟩ := List.mem_map.mp ho
    exact ⟨rfl, hclock _⟩
  · intro u hu
    have hu' : u ∈ genStudents ids clock ++ genTeachers ids clock := hu
    rcases List.mem_append.mp hu' with hs | ht
    · obtain ⟨j, -, rfl⟩ := List.mem_map.mp hs
      exact ⟨rfl, hclock _⟩
    · obtain ⟨j, -, rfl⟩ := List.mem_map.mp ht
      exact ⟨rfl, hclock _⟩
  · intro c hc
    obtain ⟨j, -, rfl⟩ := List.mem_map.mp hc
    exact ⟨rfl, hclock _⟩
  · intro c hc
    obtain ⟨j, -, rfl⟩ := List.mem_map.mp hc
    exact ⟨rfl, hclock _⟩
  · intro s hs
    obtain ⟨j, -, rfl⟩ := List.mem_map.mp hs
    exact ⟨rfl, hclock _⟩
  · intro c hc
    have hc' : c ∈ genCategories ids := hc
    simp only [genCategories, List.mem_cons, List.not_mem_nil, or_false] at hc'
    rcases hc' with rfl | rfl | rfl <;> exact ⟨rfl, rfl⟩

/-- Witness for C9 (amended) at concrete oracles: the first org and the
first category. -/
theorem C9_base_fields_amended_witness :
    (∀ n, clock0 n ≠ 0) ∧
    ((orgAt ids0 clock0 0).base.status = "active" ∧
       (orgAt ids0 clock0 0).base.dateLastModified ≠ 0) ∧
    (((NewDataStore ids0 clock0).categories.getD 0 default).base.status = "" ∧
       ((NewDataStore ids0 clock0).categories.getD 0 default).base.dateLastModified
         = 0) := by
  refine ⟨clock0_ne_zero, ?_, ?_⟩
  · exact (C9_base_fields_amended ids0 clock0 clock0_ne_zero).1
      (orgAt ids0 clock0 0)
      (List.mem_map.mpr ⟨0, List.mem_range.mpr (by norm_num), rfl⟩)
  · exact (C9_base_fields_amended ids0 clock0 clock0_ne_zero).2.2.2.2.2
      ((NewDataStore ids0 clock0).categories.getD 0 default)
      (getD_mem (by show 0 < 3; norm_num) default)

/-- Claim C10: every generated Org has type "school"; consequently the
schools list equals the orgs list, and for every id get-school succeeds
exactly when get-org succeeds, with the same record. -/
theorem C10_schools_are_orgs (ids : Nat → String) (clock : Nat → Nat) :
    ((NewDataStore ids clock).orgs.all (fun o => o.type == "school") = true) ∧
    getSchools (NewDataStore ids clock) = getOrgs (NewDataStore ids clock) ∧
    (∀ id o, getSchool (NewDataStore ids clock) id = .ok o
       ↔ getOrg (NewDataStore ids clock) id = .ok o) := by
  have hall : ∀ o ∈ (NewDataStore ids clock).orgs, o.type = "school" := by
    intro o ho
    obtain ⟨j, -, rfl⟩ := List.mem_map.mp ho
    rfl
  refine ⟨?_, ?_, ?_⟩
  · exact List.all_eq_true.mpr fun o ho => by simp [hall o ho]
  · have hfil : (NewDataStore ids clock).orgs.filter (fun o => o.type == "school")
        = (NewDataStore ids clock).orgs :=
      List.filter_eq_self.mpr (fun o ho => by simp [hall o ho])
    show ApiResult.ok ((NewDataStore ids clock).orgs.filter
      (fun o => o.type == "school")) = ApiResult.ok (NewDataStore ids clock).orgs
    rw [hfil]
  · intro id o
    have hfind : (NewDataStore ids clock).orgs.find?
        (fun o => o.base.sourcedId == id && o.type == "school")
        = (NewDataStore ids clock).orgs.find? (fun o => o.base.sourcedId == id) :=
      find_and_of_all _ _ _ (fun x hx => by simp [hall x hx])
    constructor
    · intro h
      simp only [getSchool, hfind] at h
      simp only [getOrg]
      cases hm : (NewDataStore ids clock).orgs.find?
          (fun o => o.base.sourcedId == id) with
      | some y => rw [hm] at h; simpa using h
      | none => rw [hm] at h; simp at h
    · intro h
      simp only [getOrg] at h
      simp only [getSchool, hfind]
      cases hm : (NewDataStore ids clock).orgs.find?
          (fun o => o.base.sourcedId == id) with
      | some y => rw [hm] at h; simpa using h
      | none => rw [hm] at h; simp at h

/-- Witness for C10 at concrete oracles. -/
theorem C10_schools_are_orgs_witness :
    ((NewDataStore ids0 clock0).orgs.all (fun o => o.type == "school") = true) ∧
    getSchools (NewDataStore ids0 clock0) = getOrgs (NewDataStore ids0 clock0) ∧
    (∀ id o, getSchool (NewDataStore ids0 clock0) id = .ok o
       ↔ getOrg (NewDataStore ids0 clock0) id = .ok o) :=
  C10_schools_are_orgs ids0 clock0

end OneRoster
